import Mathlib

/-
Verification development for the MCP client orchestrator (src/client.py).
The core under study is `MCPClient.process_query`, modelled as a pure
function over an environment that supplies the behaviour of the external
collaborators: the Tool Session (list_tools / call_tool) and the Model
Endpoint (the initial chat-completions POST and the per-tool-call
follow-up POSTs).
-/

/-- One JSON value.  Used for tool-call arguments (the payload handed to
`session.call_tool`) and for tool input schemas. -/
inductive Json where
  | null : Json
  | bool : Bool → Json
  | num : Int → Json
  | str : String → Json
  | arr : List Json → Json
  | obj : List (String × Json) → Json
deriving Repr

/-- Whitespace characters skipped by the JSON decoder. -/
def isJsonWs (c : Char) : Bool :=
  ([' ', '\t', '\n', '\r'] : List Char).contains c

/-- Drop leading JSON whitespace. -/
def skipWs : List Char → List Char
  | [] => []
  | c :: cs => if isJsonWs c then skipWs cs else c :: cs

/-- Translate a JSON escape character (the character after a backslash).
The model covers the single-character escapes; \u escapes are outside the
modelled subset. -/
def escChar (e : Char) : Option Char :=
  if e = '"' ∨ e = '\\' ∨ e = '/' then some e
  else if e = 'n' then some '\n'
  else if e = 't' then some '\t'
  else if e = 'r' then some '\r'
  else if e = 'b' then some (Char.ofNat 8)
  else if e = 'f' then some (Char.ofNat 12)
  else none

/-- Parse the body of a JSON string, assuming the opening quote has been
consumed; returns the content characters and the rest of the input. -/
def parseStringBody : List Char → Except String (List Char × List Char)
  | [] => Except.error "Unterminated string"
  | '"' :: rest => Except.ok ([], rest)
  | '\\' :: rest =>
    match rest with
    | [] => Except.error "Unterminated string"
    | e :: rest2 =>
      match escChar e with
      | none => Except.error "Invalid escape"
      | some c =>
        match parseStringBody rest2 with
        | Except.ok (s, r) => Except.ok (c :: s, r)
        | Except.error msg => Except.error msg
  | c :: rest =>
    match parseStringBody rest with
    | Except.ok (s, r) => Except.ok (c :: s, r)
    | Except.error msg => Except.error msg

/-- Split the longest leading run of decimal digits from the input. -/
def takeDigits : List Char → List Char × List Char
  | [] => ([], [])
  | c :: cs =>
    if c.isDigit then
      match takeDigits cs with
      | (ds, r) => (c :: ds, r)
    else ([], c :: cs)

/-- Numeric value of a digit run. -/
def digitsVal (ds : List Char) : Nat :=
  ds.foldl (fun a c => a * 10 + (c.toNat - 48)) 0

mutual

/-- Fueled recursive-descent parser for one JSON value.  Returns the value
and the unconsumed remainder of the input. -/
def parseValue : Nat → List Char → Except String (Json × List Char)
  | 0, _ => Except.error "Expecting value"
  | Nat.succ fuel, cs =>
    match skipWs cs with
    | [] => Except.error "Expecting value"
    | '\x7b' :: rest => parseObject fuel rest
    | '[' :: rest => parseArray fuel rest
    | '"' :: rest =>
      match parseStringBody rest with
      | Except.ok (s, r) => Except.ok (Json.str (String.mk s), r)
      | Except.error msg => Except.error msg
    | 't' :: 'r' :: 'u' :: 'e' :: rest => Except.ok (Json.bool true, rest)
    | 'f' :: 'a' :: 'l' :: 's' :: 'e' :: rest => Except.ok (Json.bool false, rest)
    | 'n' :: 'u' :: 'l' :: 'l' :: rest => Except.ok (Json.null, rest)
    | '-' :: rest =>
      match takeDigits rest with
      | ([], _) => Except.error "Expecting value"
      | (ds, r) => Except.ok (Json.num (-(Int.ofNat (digitsVal ds))), r)
    | c :: rest =>
      if c.isDigit then
        match takeDigits (c :: rest) with
        | (ds, r) => Except.ok (Json.num (Int.ofNat (digitsVal ds)), r)
      else Except.error "Expecting value"

/-- Parse the inside of a JSON object, after the opening brace. -/
def parseObject : Nat → List Char → Except String (Json × List Char)
  | 0, _ => Except.error "Expecting property name"
  | Nat.succ fuel, cs =>
    match skipWs cs with
    | '\x7d' :: rest => Except.ok (Json.obj [], rest)
    | other => parseMembers fuel other []

/-- Parse one or more `"key": value` members, then the closing brace. -/
def parseMembers : Nat → List Char → List (String × Json) →
    Except String (Json × List Char)
  | 0, _, _ => Except.error "Expecting property name"
  | Nat.succ fuel, cs, acc =>
    match skipWs cs with
    | '"' :: rest =>
      match parseStringBody rest with
      | Except.error msg => Except.error msg
      | Except.ok (key, r1) =>
        match skipWs r1 with
        | ':' :: r2 =>
          match parseValue fuel r2 with
          | Except.error msg => Except.error msg
          | Except.ok (v, r3) =>
            match skipWs r3 with
            | ',' :: r4 => parseMembers fuel r4 (acc ++ [(String.mk key, v)])
            | '\x7d' :: r4 => Except.ok (Json.obj (acc ++ [(String.mk key, v)]), r4)
            | _ => Except.error "Expecting delimiter"
        | _ => Except.error "Expecting colon"
    | _ => Except.error "Expecting property name"

/-- Parse the inside of a JSON array, after the opening bracket. -/
def parseArray : Nat → List Char → Except String (Json × List Char)
  | 0, _ => Except.error "Expecting value"
  | Nat.succ fuel, cs =>
    match skipWs cs with
    | ']' :: rest => Except.ok (Json.arr [], rest)
    | other => parseElems fuel other []

/-- Parse one or more array elements, then the closing bracket. -/
def parseElems : Nat → List Char → List Json → Except String (Json × List Char)
  | 0, _, _ => Except.error "Expecting value"
  | Nat.succ fuel, cs, acc =>
    match parseValue fuel cs with
    | Except.error msg => Except.error msg
    | Except.ok (v, r1) =>
      match skipWs r1 with
      | ',' :: r2 => parseElems fuel r2 (acc ++ [v])
      | ']' :: r2 => Except.ok (Json.arr (acc ++ [v]), r2)
      | _ => Except.error "Expecting delimiter"

end

/-- Model of Python `json.loads` as applied by `process_query` to a textual
`arguments` payload (src/client.py line 159).  Restricted to the JSON
subset the model covers: null, booleans, integers, strings with
single-character escapes, arrays and objects.  Failure mirrors the
`json.loads` exception: the decode error message becomes the exception
text. -/
def json_loads (s : String) : Except String Json :=
  match parseValue (2 * s.length + 8) s.data with
  | Except.error msg => Except.error msg
  | Except.ok (j, rest) =>
    match skipWs rest with
    | [] => Except.ok j
    | _ => Except.error "Extra data"

/-- Truthiness of a Python string: the empty string is falsy.  Used for
`if assistant_message.get("content"):` checks and `filter(None, final_text)`
in `process_query`. -/
def pyTruthy (s : String) : Bool := s ≠ ""

/-- Model of Python `"\n".join(...)` (src/client.py line 204). -/
def joinStrings (sep : String) : List String → String
  | [] => ""
  | [x] => x
  | x :: y :: rest => x ++ sep ++ joinStrings sep (y :: rest)

/-- A tool advertised by the Tool Session, as returned by `list_tools`
(fields mirror `tool.name`, `tool.description`, `tool.inputSchema`). -/
structure ToolDescriptor where
  name : String
  description : String
  inputSchema : Json

/-- The `function` field of a tool-call request: `name` and `arguments`,
where `arguments` is either a textual JSON encoding (`isinstance(..., str)`)
or an already-structured mapping. -/
structure ToolFunction where
  name : String
  arguments : Sum String Json

/-- One tool-call request produced by the Model Endpoint
(`tool_call["id"]`, `tool_call["function"]`). -/
structure ToolCall where
  id : String
  function : ToolFunction

/-- The assistant message inside a choice: `content` (absent or null maps
to `none`) and `tool_calls` (`none` models the key being absent). -/
structure AssistantMsg where
  content : Option String
  tool_calls : Option (List ToolCall)

/-- One element of the `choices` array; `message` is `none` when the
`message` key is absent (`choices[0].get("message", empty dict)`). -/
structure Choice where
  message : Option AssistantMsg

/-- The decoded JSON body of a chat-completions response.  `error` models
the top-level `error` field, rendered to the string Python would
interpolate for it; `choices` is `none` when the key is absent. -/
structure ModelBody where
  error : Option String
  choices : Option (List Choice)

/-- An HTTP response from the Model Endpoint: `status_code`, the raw body
`text`, and `jsonBody`, the result of `response.json()` (`Except.error`
models the decode raising, with the exception text). -/
structure HTTPResponse where
  status_code : Nat
  text : String
  jsonBody : Except String ModelBody

/-- One message of the conversation history kept in `messages`. -/
inductive Msg where
  | user : String → Msg
  | assistant : Option String → Option (List ToolCall) → Msg
  | tool : String → String → Msg

/-- The behaviour of the external collaborators during one
`process_query` call: whether `self.session` is set, the outcome of
`session.list_tools()`, the initial chat-completions POST, the outcome of
`session.call_tool name args` (the `Except.ok` payload is the rendered
`result.content`; `Except.error` carries `str(e)` of the raised
exception), and the k-th follow-up chat-completions POST.  `Except.error`
on an HTTP call models the request itself raising. -/
structure Env where
  hasSession : Bool
  listTools : Except String (List ToolDescriptor)
  initial : Except String HTTPResponse
  callTool : String → Json → Except String String
  followUp : Nat → Except String HTTPResponse

/-- `parsed_args` (src/client.py line 159): decode textual arguments with
`json.loads`, pass a structured mapping through unchanged. -/
def parse_args : Sum String Json → Except String Json
  | Sum.inl s => json_loads s
  | Sum.inr j => Except.ok j

/-- The `tool_result` local of the loop body (src/client.py lines 158-166):
the rendered tool output on success, or the
`Error executing tool <name>: <message>` text when decoding the arguments
or invoking the tool raises. -/
def tool_result (env : Env) (tc : ToolCall) : String :=
  match parse_args tc.function.arguments with
  | Except.error e => "Error executing tool " ++ tc.function.name ++ ": " ++ e
  | Except.ok j =>
    match env.callTool tc.function.name j with
    | Except.ok r => r
    | Except.error e => "Error executing tool " ++ tc.function.name ++ ": " ++ e

/-- The `[Tool <name> result: <result>]` fragment appended to `final_text`
for one tool call (src/client.py line 168). -/
def toolFragment (env : Env) (tc : ToolCall) : String :=
  "[Tool " ++ tc.function.name ++ " result: " ++ tool_result env tc ++ "]"

/-- The `call_tool` invocation a tool call gives rise to: `none` when
argument decoding raised (so `session.call_tool` is never reached),
otherwise the (name, parsed arguments) pair passed to it. -/
def toolInvocationOf (tc : ToolCall) : Option (String × Json) :=
  match parse_args tc.function.arguments with
  | Except.error _ => none
  | Except.ok j => some (tc.function.name, j)

/-- Output fragments contributed by an optional content field
(`if msg.get("content"): final_text.append(...)`). -/
def contentFragments : Option String → List String
  | some s => if pyTruthy s then [s] else []
  | none => []

/-- The assistant message of a choice, defaulting to the empty mapping
(`choices[0].get("message", empty dict)`). -/
def getMessage (c : Choice) : AssistantMsg :=
  c.message.getD { content := none, tool_calls := none }

/-- Output fragments contributed by one follow-up chat-completions call
(src/client.py lines 183-202): the caught-exception text when the POST
raises, the response decodes badly or the status is not 200; otherwise the
follow-up assistant content when the body has a non-empty `choices` list
and the message has truthy content; otherwise nothing. -/
def followUpFragments (r : Except String HTTPResponse) : List String :=
  match r with
  | Except.error e => ["Error in follow-up request: " ++ e]
  | Except.ok resp =>
    if resp.status_code ≠ 200 then
      ["Error in follow-up request: API error: " ++ resp.text]
    else
      match resp.jsonBody with
      | Except.error e => ["Error in follow-up request: " ++ e]
      | Except.ok body =>
        match body.choices with
        | some (c :: _) => contentFragments (getMessage c).content
        | _ => []

/-- The state threaded through the tool-call loop: the conversation
history, the accumulated `final_text` fragments, and instrumentation:
the `call_tool` invocations issued so far (in order) and the number of
follow-up POSTs issued so far. -/
structure LoopState where
  messages : List Msg
  final_text : List String
  invocations : List (String × Json)
  followUpCalls : Nat

/-- One iteration of `for tool_call in assistant_message["tool_calls"]`
(src/client.py lines 152-202): compute `tool_result`, append the
`[Tool <name> result: <result>]` fragment, extend the history with the
assistant tool-call message and the `tool` result message, then issue the
follow-up POST and append its fragments. -/
def processToolCall (env : Env) (st : LoopState) (tc : ToolCall) : LoopState :=
  { messages := st.messages ++
      [Msg.assistant none (some [tc]), Msg.tool tc.id (tool_result env tc)],
    final_text := st.final_text ++ [toolFragment env tc] ++
      followUpFragments (env.followUp st.followUpCalls),
    invocations := st.invocations ++ (toolInvocationOf tc).toList,
    followUpCalls := st.followUpCalls + 1 }

/-- What one `process_query` call produced: the returned string, the final
conversation history, the `final_text` fragments, the `call_tool`
invocations in order, and the number of follow-up POSTs issued. -/
structure QueryOutcome where
  result : String
  messages : List Msg
  fragments : List String
  invocations : List (String × Json)
  followUpCalls : Nat

/-- Outcome of the outer `except` handler (src/client.py lines 206-210):
the exception text becomes the returned answer.  All modelled raise sites
occur before the loop, so the history holds only the seed user message. -/
def caughtOutcome (query e : String) : QueryOutcome :=
  { result := "Error processing query: " ++ e,
    messages := [Msg.user query], fragments := [],
    invocations := [], followUpCalls := 0 }

/-- An early `return` before the loop: the history holds only the seed
user message and no tool activity happened. -/
def earlyReturn (query r : String) : QueryOutcome :=
  { result := r, messages := [Msg.user query], fragments := [],
    invocations := [], followUpCalls := 0 }

/-- The loop state before the tool-call loop: seeded history and the
initial assistant content fragment (src/client.py lines 97-149). -/
def initLoopState (query : String) (m : AssistantMsg) : LoopState :=
  { messages := [Msg.user query],
    final_text := contentFragments m.content,
    invocations := [], followUpCalls := 0 }

/-- Package the loop state into the outcome;
`"\n".join(filter(None, final_text))` is the returned string. -/
def finishOutcome (st : LoopState) : QueryOutcome :=
  { result := joinStrings "\n" (st.final_text.filter pyTruthy),
    messages := st.messages, fragments := st.final_text,
    invocations := st.invocations, followUpCalls := st.followUpCalls }

/-- Shallow embedding of `MCPClient.process_query`
(src/client.py lines 92-210) over the external behaviour `env`. -/
def process_query (env : Env) (query : String) : QueryOutcome :=
  if env.hasSession = false then
    { result := "ERROR: Not connected to server", messages := [],
      fragments := [], invocations := [], followUpCalls := 0 }
  else
    match env.listTools with
    | Except.error e => caughtOutcome query e
    | Except.ok _tools =>
      match env.initial with
      | Except.error e => caughtOutcome query e
      | Except.ok resp =>
        if resp.status_code ≠ 200 then
          earlyReturn query ("Error from OpenRouter API: " ++ resp.text)
        else
          match resp.jsonBody with
          | Except.error e => caughtOutcome query e
          | Except.ok body =>
            match body.error with
            | some e => earlyReturn query ("Error from OpenRouter: " ++ e)
            | none =>
              match body.choices with
              | none => earlyReturn query "Invalid response received from API"
              | some [] => earlyReturn query "Invalid response received from API"
              | some (c :: _) =>
                let m := getMessage c
                let st0 := initLoopState query m
                match m.tool_calls with
                | none => finishOutcome st0
                | some tcs => finishOutcome (tcs.foldl (processToolCall env) st0)

/-- Closed form of the `call_tool` invocations issued by a batch of tool
calls: one invocation per tool call whose arguments parse, in batch
order. -/
def toolInvocationsOf : List ToolCall → List (String × Json)
  | [] => []
  | tc :: rest => (toolInvocationOf tc).toList ++ toolInvocationsOf rest

/-- Closed form of the `final_text` fragments contributed by a batch of
tool calls when the follow-up counter starts at `k`. -/
def loopFragments (env : Env) : Nat → List ToolCall → List String
  | _, [] => []
  | k, tc :: rest =>
    [toolFragment env tc] ++ followUpFragments (env.followUp k) ++
      loopFragments env (k + 1) rest

/-- Closed form of the history entries appended by a batch of tool calls:
an assistant tool-call message then a `tool` result message per call. -/
def loopMessages (env : Env) : List ToolCall → List Msg
  | [] => []
  | tc :: rest =>
    [Msg.assistant none (some [tc]), Msg.tool tc.id (tool_result env tc)] ++
      loopMessages env rest

/-- Helper for `toolLinked`: checks each message against its predecessor. -/
def toolLinkedAux : Option Msg → List Msg → Bool
  | _, [] => true
  | prev, m :: rest =>
    (match m, prev with
     | Msg.tool id _, some (Msg.assistant _ (some tcs)) =>
       tcs.any (fun tc => tc.id == id)
     | Msg.tool _ _, _ => false
     | _, _ => true) && toolLinkedAux (some m) rest

/-- A history is tool-linked when every `tool` role message is immediately
preceded by an assistant message whose `tool_calls` list contains a call
with the `id` the tool message answers (its `tool_call_id`). -/
def toolLinked (l : List Msg) : Bool := toolLinkedAux none l

/-- Whether `pat` occurs at the head of `l`. -/
def startsWithSeq : List Char → List Char → Bool
  | [], _ => true
  | _ :: _, [] => false
  | p :: ps, c :: cs => if p = c then startsWithSeq ps cs else false

/-- Whether `pat` occurs contiguously anywhere in `l`. -/
def containsSeq (pat : List Char) : List Char → Bool
  | [] => startsWithSeq pat []
  | c :: cs => startsWithSeq pat (c :: cs) || containsSeq pat cs

/-- Whether the string `pat` occurs as a contiguous substring of `s`. -/
def containsSubstr (s pat : String) : Bool := containsSeq pat.data s.data

/-- A 200 response wrapping a decoded body. -/
def okResp (body : ModelBody) : HTTPResponse :=
  { status_code := 200, text := "", jsonBody := Except.ok body }

/-- A baseline environment: connected, an empty tool catalog, no initial
response configured, every tool succeeding with empty output, and every
follow-up answering 200 with an empty `choices` list. -/
def baseEnv : Env :=
  { hasSession := true,
    listTools := Except.ok [],
    initial := Except.error "unset",
    callTool := fun _ _ => Except.ok "",
    followUp := fun _ => Except.ok (okResp { error := none, choices := some [] }) }

/-- A choice whose assistant message carries the given content and tool
calls. -/
def mkChoice (content : Option String) (tool_calls : Option (List ToolCall)) : Choice :=
  { message := some { content := content, tool_calls := tool_calls } }

/-- Environment for a plain text answer: the initial call returns 200 with
one choice whose message has content `hello there` and no `tool_calls`
key. -/
def envPlain : Env :=
  { baseEnv with initial := Except.ok (okResp
      { error := none, choices := some [mkChoice (some "hello there") none] }) }

/-- A tool call whose textual arguments are not valid JSON. -/
def tcBadArgs : ToolCall :=
  { id := "call-1", function := { name := "alpha", arguments := Sum.inl "not json" } }

/-- Environment whose assistant message carries exactly one tool-call
request, with undecodable textual arguments. -/
def envBadArgs : Env :=
  { baseEnv with initial := Except.ok (okResp
      { error := none, choices := some [mkChoice none (some [tcBadArgs])] }) }

/-- Three tool calls with structured arguments, for the batch-of-3
scenario. -/
def tcA : ToolCall :=
  { id := "id-a", function := { name := "a", arguments := Sum.inr (Json.obj [("k", Json.num 1)]) } }

def tcB : ToolCall :=
  { id := "id-b", function := { name := "b", arguments := Sum.inr (Json.obj [("k", Json.num 2)]) } }

def tcC : ToolCall :=
  { id := "id-c", function := { name := "c", arguments := Sum.inr (Json.obj [("k", Json.num 3)]) } }

/-- Environment for the batch of 3: the middle invocation raises, the
other two succeed. -/
def envBatch3 : Env :=
  { baseEnv with
    initial := Except.ok (okResp
      { error := none, choices := some [mkChoice none (some [tcA, tcB, tcC])] }),
    callTool := fun n _ => if n = "b" then Except.error "boom" else Except.ok ("res-" ++ n) }

/-- Environment whose initial call returns HTTP 500. -/
def env500 : Env :=
  { baseEnv with initial := Except.ok (HTTPResponse.mk 500 "Internal Server Error" (Except.error "unused")) }

/-- Environment whose initial 200 body carries a top-level `error`
field. -/
def envErrField : Env :=
  { baseEnv with initial := Except.ok (okResp
      { error := some "quota exceeded", choices := some [mkChoice (some "hi") none] }) }

/-- Environment whose initial 200 body has no `choices` key. -/
def envNoChoices : Env :=
  { baseEnv with initial := Except.ok (okResp { error := none, choices := none }) }

/-- A tool call whose arguments are the textual encoding of the mapping
x maps to 1. -/
def tcTextArgs : ToolCall :=
  { id := "id-t", function := { name := "alpha", arguments := Sum.inl "\x7b\"x\":1\x7d" } }

/-- A tool call whose arguments are already structured. -/
def tcStructArgs : ToolCall :=
  { id := "id-s", function := { name := "beta", arguments := Sum.inr (Json.obj [("y", Json.num 2)]) } }

/-- A second undecodable-argument tool call, batched after two good
ones. -/
def tcBadArgs2 : ToolCall :=
  { id := "id-u", function := { name := "gamma", arguments := Sum.inl "not json" } }

/-- Environment for the argument-decoding scenarios: a textual, a
structured and an undecodable argument payload in one batch. -/
def envArgs : Env :=
  { baseEnv with
    initial := Except.ok (okResp
      { error := none, choices := some [mkChoice none (some [tcTextArgs, tcStructArgs, tcBadArgs2])] }),
    callTool := fun n _ => Except.ok ("ok-" ++ n) }

/-- Environment for follow-up failures: two structured tool calls, the
first follow-up POST raises and the second returns HTTP 503. -/
def envFollowFail : Env :=
  { baseEnv with
    initial := Except.ok (okResp
      { error := none, choices := some [mkChoice none (some [tcA, tcB])] }),
    callTool := fun n _ => Except.ok ("res-" ++ n),
    followUp := fun k =>
      if k = 0 then Except.error "connection reset"
      else Except.ok (HTTPResponse.mk 503 "Service Unavailable" (Except.error "unused")) }

/-- Environment with no live Tool Session. -/
def envNoSession : Env := { baseEnv with hasSession := false }

/-- Environment where `list_tools` raises. -/
def envListFail : Env :=
  { baseEnv with listTools := Except.error "transport closed" }

/-- Environment for the malformed follow-up: one structured tool call,
whose follow-up returns 200 with an `error` field and an empty `choices`
list. -/
def envFollowMalformed : Env :=
  { baseEnv with
    initial := Except.ok (okResp
      { error := none, choices := some [mkChoice none (some [tcA])] }),
    callTool := fun n _ => Except.ok ("res-" ++ n),
    followUp := fun _ => Except.ok (okResp
      { error := some "follow-up error", choices := some [] }) }

theorem foldl_processToolCall (env : Env) (tcs : List ToolCall) : ∀ st : LoopState,
    tcs.foldl (processToolCall env) st =
      { messages := st.messages ++ loopMessages env tcs,
        final_text := st.final_text ++ loopFragments env st.followUpCalls tcs,
        invocations := st.invocations ++ toolInvocationsOf tcs,
        followUpCalls := st.followUpCalls + tcs.length } := by
  induction tcs with
  | nil => intro st; simp [loopMessages, loopFragments, toolInvocationsOf]
  | cons tc rest ih =>
    intro st
    rw [List.foldl_cons, ih]
    simp [processToolCall, loopMessages, loopFragments, toolInvocationsOf,
      List.append_assoc]
    omega

theorem process_query_success (env : Env) (q : String) (tools : List ToolDescriptor)
    (resp : HTTPResponse) (body : ModelBody) (c : Choice) (rest : List Choice)
    (m : AssistantMsg)
    (hs : env.hasSession = true)
    (hlt : env.listTools = Except.ok tools)
    (hi : env.initial = Except.ok resp)
    (hst : resp.status_code = 200)
    (hj : resp.jsonBody = Except.ok body)
    (he : body.error = none)
    (hc : body.choices = some (c :: rest))
    (hm : c.message = some m) :
    process_query env q = finishOutcome (
      match m.tool_calls with
      | none => initLoopState q m
      | some tcs => tcs.foldl (processToolCall env) (initLoopState q m)) := by
  unfold process_query
  rw [hs, hlt, hi]
  simp [hst, hj, he, hc, getMessage, hm]
  cases m.tool_calls <;> rfl

theorem process_query_loop (env : Env) (q : String) (tools : List ToolDescriptor)
    (resp : HTTPResponse) (body : ModelBody) (c : Choice) (rest : List Choice)
    (m : AssistantMsg) (tcs : List ToolCall)
    (hs : env.hasSession = true)
    (hlt : env.listTools = Except.ok tools)
    (hi : env.initial = Except.ok resp)
    (hst : resp.status_code = 200)
    (hj : resp.jsonBody = Except.ok body)
    (he : body.error = none)
    (hc : body.choices = some (c :: rest))
    (hm : c.message = some m)
    (htc : m.tool_calls = some tcs) :
    process_query env q =
      { result := joinStrings "\n"
          ((contentFragments m.content ++ loopFragments env 0 tcs).filter pyTruthy),
        messages := Msg.user q :: loopMessages env tcs,
        fragments := contentFragments m.content ++ loopFragments env 0 tcs,
        invocations := toolInvocationsOf tcs,
        followUpCalls := tcs.length } := by
  rw [process_query_success env q tools resp body c rest m hs hlt hi hst hj he hc hm]
  rw [htc]
  show finishOutcome (List.foldl (processToolCall env) (initLoopState q m) tcs) = _
  rw [foldl_processToolCall]
  simp [finishOutcome, initLoopState]

theorem process_query_no_tool_branch (env : Env) (q : String) (tools : List ToolDescriptor)
    (resp : HTTPResponse) (body : ModelBody) (c : Choice) (rest : List Choice)
    (m : AssistantMsg)
    (hs : env.hasSession = true)
    (hlt : env.listTools = Except.ok tools)
    (hi : env.initial = Except.ok resp)
    (hst : resp.status_code = 200)
    (hj : resp.jsonBody = Except.ok body)
    (he : body.error = none)
    (hc : body.choices = some (c :: rest))
    (hm : c.message = some m)
    (htc : m.tool_calls = none) :
    process_query env q =
      { result := joinStrings "\n" ((contentFragments m.content).filter pyTruthy),
        messages := [Msg.user q],
        fragments := contentFragments m.content,
        invocations := [],
        followUpCalls := 0 } := by
  rw [process_query_success env q tools resp body c rest m hs hlt hi hst hj he hc hm]
  rw [htc]
  show finishOutcome (initLoopState q m) = _
  simp [finishOutcome, initLoopState]

theorem process_query_not_connected (env : Env) (q : String)
    (hs : env.hasSession = false) :
    process_query env q =
      { result := "ERROR: Not connected to server", messages := [],
        fragments := [], invocations := [], followUpCalls := 0 } := by
  unfold process_query
  rw [hs]
  simp

theorem process_query_listTools_raises (env : Env) (q e : String)
    (hs : env.hasSession = true) (hlt : env.listTools = Except.error e) :
    process_query env q = caughtOutcome q e := by
  unfold process_query
  rw [hs, hlt]
  simp

theorem process_query_initial_raises (env : Env) (q e : String)
    (tools : List ToolDescriptor)
    (hs : env.hasSession = true) (hlt : env.listTools = Except.ok tools)
    (hi : env.initial = Except.error e) :
    process_query env q = caughtOutcome q e := by
  unfold process_query
  rw [hs, hlt, hi]
  simp

theorem process_query_non200 (env : Env) (q : String)
    (tools : List ToolDescriptor) (resp : HTTPResponse)
    (hs : env.hasSession = true) (hlt : env.listTools = Except.ok tools)
    (hi : env.initial = Except.ok resp)
    (hst : resp.status_code ≠ 200) :
    process_query env q = earlyReturn q ("Error from OpenRouter API: " ++ resp.text) := by
  unfold process_query
  rw [hs, hlt, hi]
  simp [hst]

theorem process_query_json_raises (env : Env) (q e : String)
    (tools : List ToolDescriptor) (resp : HTTPResponse)
    (hs : env.hasSession = true) (hlt : env.listTools = Except.ok tools)
    (hi : env.initial = Except.ok resp)
    (hst : resp.status_code = 200)
    (hj : resp.jsonBody = Except.error e) :
    process_query env q = caughtOutcome q e := by
  unfold process_query
  rw [hs, hlt, hi]
  simp [hst, hj]

theorem process_query_error_field (env : Env) (q e : String)
    (tools : List ToolDescriptor) (resp : HTTPResponse) (body : ModelBody)
    (hs : env.hasSession = true) (hlt : env.listTools = Except.ok tools)
    (hi : env.initial = Except.ok resp)
    (hst : resp.status_code = 200)
    (hj : resp.jsonBody = Except.ok body)
    (he : body.error = some e) :
    process_query env q = earlyReturn q ("Error from OpenRouter: " ++ e) := by
  unfold process_query
  rw [hs, hlt, hi]
  simp [hst, hj, he]

theorem process_query_bad_choices (env : Env) (q : String)
    (tools : List ToolDescriptor) (resp : HTTPResponse) (body : ModelBody)
    (hs : env.hasSession = true) (hlt : env.listTools = Except.ok tools)
    (hi : env.initial = Except.ok resp)
    (hst : resp.status_code = 200)
    (hj : resp.jsonBody = Except.ok body)
    (he : body.error = none)
    (hc : body.choices = none ∨ body.choices = some []) :
    process_query env q = earlyReturn q "Invalid response received from API" := by
  unfold process_query
  rw [hs, hlt, hi]
  rcases hc with hc | hc <;> simp [hst, hj, he, hc]

theorem toolFragment_mem_loopFragments (env : Env) (tcs : List ToolCall)
    (tc : ToolCall) (h : tc ∈ tcs) :
    ∀ k, toolFragment env tc ∈ loopFragments env k tcs := by
  induction tcs with
  | nil => cases h
  | cons hd tl ih =>
    intro k
    rcases List.mem_cons.mp h with h1 | h2
    · subst h1
      simp [loopFragments]
    · have hrec := ih h2 (k + 1)
      simp [loopFragments, List.mem_append]
      tauto

theorem followUpFragments_mem_loopFragments (env : Env) :
    ∀ (tcs : List ToolCall) (k i : Nat), i < tcs.length →
      ∀ s ∈ followUpFragments (env.followUp (k + i)), s ∈ loopFragments env k tcs := by
  intro tcs
  induction tcs with
  | nil => intro k i h; simp at h
  | cons hd tl ih =>
    intro k i hlen s hmem
    cases i with
    | zero =>
      simp only [Nat.add_zero] at hmem
      simp [loopFragments, List.mem_append]
      tauto
    | succ n =>
      have hn : n < tl.length := by
        simp at hlen
        omega
      have hrec := ih (k + 1) n hn s (by
        have heq : k + 1 + n = k + (n + 1) := by omega
        rw [heq]
        exact hmem)
      simp [loopFragments, List.mem_append]
      tauto

theorem joinStrings_contentFragments (s : String) :
    joinStrings "\n" ((contentFragments (some s)).filter pyTruthy) = s := by
  by_cases h : s = "" <;> simp [contentFragments, pyTruthy, h, joinStrings]

theorem toolLinkedAux_loopMessages (env : Env) (tcs : List ToolCall) :
    ∀ prev, toolLinkedAux prev (loopMessages env tcs) = true := by
  induction tcs with
  | nil => intro prev; rfl
  | cons tc tl ih =>
    intro prev
    simp [loopMessages, toolLinkedAux, ih]

theorem toolInvocationsOf_length_le (tcs : List ToolCall) :
    (toolInvocationsOf tcs).length ≤ tcs.length := by
  induction tcs with
  | nil => simp [toolInvocationsOf]
  | cons hd tl ih =>
    cases h : toolInvocationOf hd <;>
      simp [toolInvocationsOf, h, Option.toList] <;> omega

theorem parsed_mem_toolInvocationsOf (tcs : List ToolCall) (tc : ToolCall)
    (j : Json) (h : tc ∈ tcs)
    (hp : parse_args tc.function.arguments = Except.ok j) :
    (tc.function.name, j) ∈ toolInvocationsOf tcs := by
  induction tcs with
  | nil => cases h
  | cons hd tl ih =>
    rcases List.mem_cons.mp h with h1 | h2
    · subst h1
      simp [toolInvocationsOf, toolInvocationOf, hp, Option.toList]
    · have hrec := ih h2
      simp [toolInvocationsOf, List.mem_append]
      tauto

/-- C1: when the initial Model Endpoint response is a 200 whose body has no
error field and a non-empty choices list, and the assistant message carries
content but no tool_calls key, process_query returns the content text
exactly: nothing trimmed, nothing joined around it. -/
theorem process_query_returns_content_exactly
    (env : Env) (q : String) (tools : List ToolDescriptor)
    (resp : HTTPResponse) (body : ModelBody) (c : Choice) (rest : List Choice)
    (m : AssistantMsg) (s : String)
    (hs : env.hasSession = true)
    (hlt : env.listTools = Except.ok tools)
    (hi : env.initial = Except.ok resp)
    (hst : resp.status_code = 200)
    (hj : resp.jsonBody = Except.ok body)
    (he : body.error = none)
    (hc : body.choices = some (c :: rest))
    (hm : c.message = some m)
    (hct : m.content = some s)
    (htc : m.tool_calls = none) :
    (process_query env q).result = s := by
  rw [process_query_no_tool_branch env q tools resp body c rest m hs hlt hi hst hj he hc hm htc]
  show joinStrings "\n" ((contentFragments m.content).filter pyTruthy) = s
  rw [hct]
  exact joinStrings_contentFragments s

/-- C1 witness: a concrete run returning the assistant content
verbatim. -/
theorem process_query_returns_content_exactly_witness :
    (process_query envPlain "hi").result = "hello there" :=
  process_query_returns_content_exactly envPlain "hi" []
    (okResp { error := none, choices := some [mkChoice (some "hello there") none] })
    { error := none, choices := some [mkChoice (some "hello there") none] }
    (mkChoice (some "hello there") none) []
    { content := some "hello there", tool_calls := none }
    "hello there" rfl rfl rfl rfl rfl rfl rfl rfl rfl rfl

/-- C2 counterexample: an assistant message carrying exactly one tool-call
request whose textual arguments do not decode leads to zero
`call_tool` invocations, not one — `json.loads` raises before
`session.call_tool` is reached, so the claimed "exactly N invocations"
fails. -/
theorem process_query_invocation_count_counterexample :
    envBadArgs.initial = Except.ok (okResp
      { error := none, choices := some [mkChoice none (some [tcBadArgs])] }) ∧
    [tcBadArgs].length = 1 ∧
    (process_query envBadArgs "q").invocations.length = 0 := by
  refine ⟨rfl, rfl, ?_⟩
  rfl

/-- C2 amended: for an assistant message with N tool-call requests,
process_query issues one `call_tool` invocation per request whose
arguments are structured or decode successfully — hence at most N, in
batch order — and issues exactly N (hence at most N) follow-up Model
Endpoint calls. -/
theorem process_query_invocation_count
    (env : Env) (q : String) (tools : List ToolDescriptor)
    (resp : HTTPResponse) (body : ModelBody) (c : Choice) (rest : List Choice)
    (m : AssistantMsg) (tcs : List ToolCall)
    (hs : env.hasSession = true)
    (hlt : env.listTools = Except.ok tools)
    (hi : env.initial = Except.ok resp)
    (hst : resp.status_code = 200)
    (hj : resp.jsonBody = Except.ok body)
    (he : body.error = none)
    (hc : body.choices = some (c :: rest))
    (hm : c.message = some m)
    (htc : m.tool_calls = some tcs) :
    (process_query env q).invocations = toolInvocationsOf tcs ∧
    (process_query env q).invocations.length ≤ tcs.length ∧
    (process_query env q).followUpCalls = tcs.length := by
  rw [process_query_loop env q tools resp body c rest m tcs hs hlt hi hst hj he hc hm htc]
  exact ⟨rfl, toolInvocationsOf_length_le tcs, rfl⟩

/-- C2 amended witness: the one-bad-tool-call run issues zero invocations
and exactly one follow-up call. -/
theorem process_query_invocation_count_witness :
    (process_query envBadArgs "q").invocations = toolInvocationsOf [tcBadArgs] ∧
    (process_query envBadArgs "q").invocations.length ≤ 1 ∧
    (process_query envBadArgs "q").followUpCalls = 1 :=
  process_query_invocation_count envBadArgs "q" []
    (okResp { error := none, choices := some [mkChoice none (some [tcBadArgs])] })
    { error := none, choices := some [mkChoice none (some [tcBadArgs])] }
    (mkChoice none (some [tcBadArgs])) []
    { content := none, tool_calls := some [tcBadArgs] }
    [tcBadArgs] rfl rfl rfl rfl rfl rfl rfl rfl rfl

/-- C3: a `call_tool` failure is caught locally and converted into the
textual result `Error executing tool <name>: <message>` scoped to that one
tool call; every tool call in the batch whose arguments parse is still
invoked, and the `[Tool <name> result: ...]` fragment of each tool call
still appears in the accumulated output. -/
theorem process_query_tool_failure_contained
    (env : Env) (q : String) (tools : List ToolDescriptor)
    (resp : HTTPResponse) (body : ModelBody) (c : Choice) (rest : List Choice)
    (m : AssistantMsg) (tcs : List ToolCall)
    (hs : env.hasSession = true)
    (hlt : env.listTools = Except.ok tools)
    (hi : env.initial = Except.ok resp)
    (hst : resp.status_code = 200)
    (hj : resp.jsonBody = Except.ok body)
    (he : body.error = none)
    (hc : body.choices = some (c :: rest))
    (hm : c.message = some m)
    (htc : m.tool_calls = some tcs) :
    (∀ tc ∈ tcs, ∀ j, parse_args tc.function.arguments = Except.ok j →
        (tc.function.name, j) ∈ (process_query env q).invocations) ∧
    (∀ tc ∈ tcs, toolFragment env tc ∈ (process_query env q).fragments) ∧
    (∀ tc ∈ tcs, ∀ j e, parse_args tc.function.arguments = Except.ok j →
        env.callTool tc.function.name j = Except.error e →
        tool_result env tc = "Error executing tool " ++ tc.function.name ++ ": " ++ e ∧
        toolFragment env tc =
          "[Tool " ++ tc.function.name ++ " result: " ++ tool_result env tc ++ "]") := by
  rw [process_query_loop env q tools resp body c rest m tcs hs hlt hi hst hj he hc hm htc]
  refine ⟨?_, ?_, ?_⟩
  · intro tc hmem j hp
    exact parsed_mem_toolInvocationsOf tcs tc j hmem hp
  · intro tc hmem
    have := toolFragment_mem_loopFragments env tcs tc hmem 0
    simp [List.mem_append]
    tauto
  · intro tc hmem j e hp hcall
    exact ⟨by simp [tool_result, hp, hcall], rfl⟩

/-- C3 witness: batch of 3 where the middle invocation raises; the other
two are invoked with their parsed arguments, all three fragments appear,
and the failing fragment carries the error text. -/
theorem process_query_tool_failure_contained_witness :
    (("a", Json.obj [("k", Json.num 1)]) ∈ (process_query envBatch3 "q").invocations) ∧
    (("c", Json.obj [("k", Json.num 3)]) ∈ (process_query envBatch3 "q").invocations) ∧
    (toolFragment envBatch3 tcB ∈ (process_query envBatch3 "q").fragments) ∧
    tool_result envBatch3 tcB = "Error executing tool " ++ "b" ++ ": " ++ "boom" := by
  have h := process_query_tool_failure_contained envBatch3 "q" []
    (okResp { error := none, choices := some [mkChoice none (some [tcA, tcB, tcC])] })
    { error := none, choices := some [mkChoice none (some [tcA, tcB, tcC])] }
    (mkChoice none (some [tcA, tcB, tcC])) []
    { content := none, tool_calls := some [tcA, tcB, tcC] }
    [tcA, tcB, tcC] rfl rfl rfl rfl rfl rfl rfl rfl rfl
  refine ⟨?_, ?_, ?_, ?_⟩
  · exact h.1 tcA (by simp) (Json.obj [("k", Json.num 1)]) rfl
  · exact h.1 tcC (by simp) (Json.obj [("k", Json.num 3)]) rfl
  · exact h.2.1 tcB (by simp)
  · exact (h.2.2 tcB (by simp) (Json.obj [("k", Json.num 2)]) "boom" rfl rfl).1

/-- C4 counterexample: on an initial HTTP 500 with body
`Internal Server Error`, the returned string embeds the raw body but not
the status — `500` appears nowhere in it (the status code is only
printed), so the claimed "embedding the status" fails. -/
theorem process_query_non200_counterexample :
    (process_query env500 "q").result = "Error from OpenRouter API: Internal Server Error" ∧
    containsSubstr (process_query env500 "q").result "500" = false := by
  exact ⟨rfl, by rfl⟩

/-- C4 amended: on a non-200 initial status the query aborts immediately:
the returned string is `Error from OpenRouter API: ` followed by the raw
response body (the status itself is not embedded), no tool invocation is
issued, no follow-up call is made, and the history holds only the seed
user message. -/
theorem process_query_non200_aborts
    (env : Env) (q : String) (tools : List ToolDescriptor) (resp : HTTPResponse)
    (hs : env.hasSession = true)
    (hlt : env.listTools = Except.ok tools)
    (hi : env.initial = Except.ok resp)
    (hst : resp.status_code ≠ 200) :
    (process_query env q).result = "Error from OpenRouter API: " ++ resp.text ∧
    (process_query env q).invocations = [] ∧
    (process_query env q).followUpCalls = 0 ∧
    (process_query env q).messages = [Msg.user q] := by
  rw [process_query_non200 env q tools resp hs hlt hi hst]
  exact ⟨rfl, rfl, rfl, rfl⟩

/-- C4 amended witness: the concrete 500 run. -/
theorem process_query_non200_aborts_witness :
    (process_query env500 "q").result = "Error from OpenRouter API: " ++ "Internal Server Error" ∧
    (process_query env500 "q").invocations = [] ∧
    (process_query env500 "q").followUpCalls = 0 ∧
    (process_query env500 "q").messages = [Msg.user "q"] :=
  process_query_non200_aborts env500 "q" []
    (HTTPResponse.mk 500 "Internal Server Error" (Except.error "unused"))
    rfl rfl rfl (by decide)

/-- C5: a top-level error field in the initial 200 body terminates the
query with `Error from OpenRouter: ` followed by that error content
verbatim; an absent or empty choices list terminates it with
`Invalid response received from API`; in both cases no tool is invoked. -/
theorem process_query_malformed_body_terminal
    (env : Env) (q : String) (tools : List ToolDescriptor)
    (resp : HTTPResponse) (body : ModelBody)
    (hs : env.hasSession = true)
    (hlt : env.listTools = Except.ok tools)
    (hi : env.initial = Except.ok resp)
    (hst : resp.status_code = 200)
    (hj : resp.jsonBody = Except.ok body) :
    (∀ e, body.error = some e →
        (process_query env q).result = "Error from OpenRouter: " ++ e ∧
        (process_query env q).invocations = []) ∧
    (body.error = none → (body.choices = none ∨ body.choices = some []) →
        (process_query env q).result = "Invalid response received from API" ∧
        (process_query env q).invocations = []) := by
  constructor
  · intro e he
    rw [process_query_error_field env q e tools resp body hs hlt hi hst hj he]
    exact ⟨rfl, rfl⟩
  · intro he hch
    rw [process_query_bad_choices env q tools resp body hs hlt hi hst hj he hch]
    exact ⟨rfl, rfl⟩

/-- C5 witness: one run with an error field (returned verbatim) and one
with no choices key. -/
theorem process_query_malformed_body_terminal_witness :
    (process_query envErrField "q").result = "Error from OpenRouter: " ++ "quota exceeded" ∧
    (process_query envNoChoices "q").result = "Invalid response received from API" :=
  ⟨((process_query_malformed_body_terminal envErrField "q" []
      (okResp { error := some "quota exceeded", choices := some [mkChoice (some "hi") none] })
      { error := some "quota exceeded", choices := some [mkChoice (some "hi") none] }
      rfl rfl rfl rfl rfl).1 "quota exceeded" rfl).1,
   ((process_query_malformed_body_terminal envNoChoices "q" []
      (okResp { error := none, choices := none })
      { error := none, choices := none }
      rfl rfl rfl rfl rfl).2 rfl (Or.inl rfl)).1⟩

/-- C6: raw tool-call arguments are accepted in both shapes — an
already-structured mapping is passed to `call_tool` unchanged, and a
textual JSON encoding is decoded before invocation (in particular the
text `\x7b"x":1\x7d` decodes to the mapping x to 1); a decoding failure is
caught as a tool-level error result for that one call while the batch and
the query keep going (all N follow-up calls are still issued). -/
theorem process_query_argument_parsing
    (env : Env) (q : String) (tools : List ToolDescriptor)
    (resp : HTTPResponse) (body : ModelBody) (c : Choice) (rest : List Choice)
    (m : AssistantMsg) (tcs : List ToolCall)
    (hs : env.hasSession = true)
    (hlt : env.listTools = Except.ok tools)
    (hi : env.initial = Except.ok resp)
    (hst : resp.status_code = 200)
    (hj : resp.jsonBody = Except.ok body)
    (he : body.error = none)
    (hc : body.choices = some (c :: rest))
    (hm : c.message = some m)
    (htc : m.tool_calls = some tcs) :
    (∀ tc ∈ tcs, ∀ j, tc.function.arguments = Sum.inr j →
        (tc.function.name, j) ∈ (process_query env q).invocations) ∧
    (∀ tc ∈ tcs, ∀ s j, tc.function.arguments = Sum.inl s → json_loads s = Except.ok j →
        (tc.function.name, j) ∈ (process_query env q).invocations) ∧
    (∀ tc ∈ tcs, ∀ s e, tc.function.arguments = Sum.inl s → json_loads s = Except.error e →
        tool_result env tc = "Error executing tool " ++ tc.function.name ++ ": " ++ e ∧
        toolFragment env tc ∈ (process_query env q).fragments) ∧
    (process_query env q).followUpCalls = tcs.length ∧
    json_loads "\x7b\"x\":1\x7d" = Except.ok (Json.obj [("x", Json.num 1)]) := by
  have hloop := process_query_loop env q tools resp body c rest m tcs hs hlt hi hst hj he hc hm htc
  refine ⟨?_, ?_, ?_, ?_, rfl⟩
  · intro tc hmem j ha
    rw [hloop]
    exact parsed_mem_toolInvocationsOf tcs tc j hmem (by simp [parse_args, ha])
  · intro tc hmem s j ha hdec
    rw [hloop]
    exact parsed_mem_toolInvocationsOf tcs tc j hmem (by simp [parse_args, ha, hdec])
  · intro tc hmem s e ha hdec
    constructor
    · simp [tool_result, parse_args, ha, hdec]
    · rw [hloop]
      have := toolFragment_mem_loopFragments env tcs tc hmem 0
      simp [List.mem_append]
      tauto
  · rw [hloop]

/-- C6 witness: the batch with a textual, a structured and an undecodable
argument payload. -/
theorem process_query_argument_parsing_witness :
    (("alpha", Json.obj [("x", Json.num 1)]) ∈ (process_query envArgs "q").invocations) ∧
    (("beta", Json.obj [("y", Json.num 2)]) ∈ (process_query envArgs "q").invocations) ∧
    tool_result envArgs tcBadArgs2 = "Error executing tool " ++ "gamma" ++ ": " ++ "Expecting value" ∧
    (process_query envArgs "q").followUpCalls = 3 := by
  have h := process_query_argument_parsing envArgs "q" []
    (okResp { error := none, choices := some [mkChoice none (some [tcTextArgs, tcStructArgs, tcBadArgs2])] })
    { error := none, choices := some [mkChoice none (some [tcTextArgs, tcStructArgs, tcBadArgs2])] }
    (mkChoice none (some [tcTextArgs, tcStructArgs, tcBadArgs2])) []
    { content := none, tool_calls := some [tcTextArgs, tcStructArgs, tcBadArgs2] }
    [tcTextArgs, tcStructArgs, tcBadArgs2] rfl rfl rfl rfl rfl rfl rfl rfl rfl
  refine ⟨?_, ?_, ?_, h.2.2.2.1⟩
  · exact h.2.1 tcTextArgs (by simp) "\x7b\"x\":1\x7d" (Json.obj [("x", Json.num 1)]) rfl (by rfl)
  · exact h.1 tcStructArgs (by simp) (Json.obj [("y", Json.num 2)]) rfl
  · exact (h.2.2.1 tcBadArgs2 (by simp) "not json" "Expecting value" rfl (by rfl)).1

/-- C7: a failing follow-up Model Endpoint call — the POST raising or a
non-200 status — is caught: its error fragment joins the output, every
tool call in the batch is still processed (invocations are untouched and
all N follow-up calls are issued), and subsequent tool calls are not
aborted. -/
theorem process_query_follow_up_failure_contained
    (env : Env) (q : String) (tools : List ToolDescriptor)
    (resp : HTTPResponse) (body : ModelBody) (c : Choice) (rest : List Choice)
    (m : AssistantMsg) (tcs : List ToolCall) (i : Nat)
    (hs : env.hasSession = true)
    (hlt : env.listTools = Except.ok tools)
    (hi : env.initial = Except.ok resp)
    (hst : resp.status_code = 200)
    (hj : resp.jsonBody = Except.ok body)
    (he : body.error = none)
    (hc : body.choices = some (c :: rest))
    (hm : c.message = some m)
    (htc : m.tool_calls = some tcs)
    (hlen : i < tcs.length) :
    (process_query env q).invocations = toolInvocationsOf tcs ∧
    (process_query env q).followUpCalls = tcs.length ∧
    (∀ e, env.followUp i = Except.error e →
        ("Error in follow-up request: " ++ e) ∈ (process_query env q).fragments) ∧
    (∀ r, env.followUp i = Except.ok r → r.status_code ≠ 200 →
        ("Error in follow-up request: API error: " ++ r.text) ∈ (process_query env q).fragments) := by
  rw [process_query_loop env q tools resp body c rest m tcs hs hlt hi hst hj he hc hm htc]
  refine ⟨rfl, rfl, ?_, ?_⟩
  · intro e hfu
    have hmem := followUpFragments_mem_loopFragments env tcs 0 i hlen
      ("Error in follow-up request: " ++ e) (by simp [hfu, followUpFragments])
    simp [List.mem_append]
    tauto
  · intro r hfu hr
    have hmem := followUpFragments_mem_loopFragments env tcs 0 i hlen
      ("Error in follow-up request: API error: " ++ r.text)
      (by simp [hfu, followUpFragments, hr])
    simp [List.mem_append]
    tauto

/-- C7 witness: two tool calls; the first follow-up raises, the second
returns 503 — both error fragments appear and both invocations happen. -/
theorem process_query_follow_up_failure_contained_witness :
    (process_query envFollowFail "q").invocations = toolInvocationsOf [tcA, tcB] ∧
    (process_query envFollowFail "q").followUpCalls = 2 ∧
    ("Error in follow-up request: " ++ "connection reset") ∈ (process_query envFollowFail "q").fragments ∧
    ("Error in follow-up request: API error: " ++ "Service Unavailable") ∈ (process_query envFollowFail "q").fragments := by
  have h0 := process_query_follow_up_failure_contained envFollowFail "q" []
    (okResp { error := none, choices := some [mkChoice none (some [tcA, tcB])] })
    { error := none, choices := some [mkChoice none (some [tcA, tcB])] }
    (mkChoice none (some [tcA, tcB])) []
    { content := none, tool_calls := some [tcA, tcB] }
    [tcA, tcB] 0 rfl rfl rfl rfl rfl rfl rfl rfl rfl (by decide)
  have h1 := process_query_follow_up_failure_contained envFollowFail "q" []
    (okResp { error := none, choices := some [mkChoice none (some [tcA, tcB])] })
    { error := none, choices := some [mkChoice none (some [tcA, tcB])] }
    (mkChoice none (some [tcA, tcB])) []
    { content := none, tool_calls := some [tcA, tcB] }
    [tcA, tcB] 1 rfl rfl rfl rfl rfl rfl rfl rfl rfl (by decide)
  refine ⟨h0.1, h0.2.1, ?_, ?_⟩
  · exact h0.2.2.1 "connection reset" rfl
  · exact h1.2.2.2 (HTTPResponse.mk 503 "Service Unavailable" (Except.error "unused")) rfl (by decide)

/-- C8: in the history produced by any process_query run, every `tool`
role message carries the `tool_call_id` of the call it answers and is
immediately preceded by an assistant message whose `tool_calls` list
contains that id. -/
theorem process_query_tool_messages_linked (env : Env) (q : String) :
    toolLinked (process_query env q).messages = true := by
  unfold process_query
  repeat' split
  all_goals try rfl
  dsimp only []
  split
  · rfl
  · rw [foldl_processToolCall]
    simp only [finishOutcome, initLoopState, toolLinked]
    simp only [List.cons_append, List.nil_append]
    show (true && toolLinkedAux (some (Msg.user q)) _) = true
    simp [toolLinkedAux_loopMessages]

/-- C9: process_query always hands back an answer string: with no live
Tool Session it returns `ERROR: Not connected to server` at once, having
done nothing; and each modelled raise inside the query — `list_tools`,
the initial POST, or decoding the initial response body — is caught and
returned as `Error processing query: ` plus the exception text. -/
theorem process_query_total_error_capture (env : Env) (q : String) :
    (env.hasSession = false →
        process_query env q =
          { result := "ERROR: Not connected to server", messages := [],
            fragments := [], invocations := [], followUpCalls := 0 }) ∧
    (∀ e, env.hasSession = true → env.listTools = Except.error e →
        (process_query env q).result = "Error processing query: " ++ e) ∧
    (∀ tools e, env.hasSession = true → env.listTools = Except.ok tools →
        env.initial = Except.error e →
        (process_query env q).result = "Error processing query: " ++ e) ∧
    (∀ tools resp e, env.hasSession = true → env.listTools = Except.ok tools →
        env.initial = Except.ok resp → resp.status_code = 200 →
        resp.jsonBody = Except.error e →
        (process_query env q).result = "Error processing query: " ++ e) := by
  refine ⟨?_, ?_, ?_, ?_⟩
  · intro hs
    exact process_query_not_connected env q hs
  · intro e hs hlt
    rw [process_query_listTools_raises env q e hs hlt]
    rfl
  · intro tools e hs hlt hi
    rw [process_query_initial_raises env q e tools hs hlt hi]
    rfl
  · intro tools resp e hs hlt hi hst hj
    rw [process_query_json_raises env q e tools resp hs hlt hi hst hj]
    rfl

/-- C9 witness: the not-connected run and a run whose `list_tools`
raises. -/
theorem process_query_total_error_capture_witness :
    process_query envNoSession "q" =
      { result := "ERROR: Not connected to server", messages := [],
        fragments := [], invocations := [], followUpCalls := 0 } ∧
    (process_query envListFail "q").result = "Error processing query: " ++ "transport closed" :=
  ⟨(process_query_total_error_capture envNoSession "q").1 rfl,
   (process_query_total_error_capture envListFail "q").2.1 "transport closed" rfl rfl⟩

/-- C10: a follow-up response with status 200 whose body lacks a
non-empty choices list contributes no output fragment at all — no
assistant content and no error fragment, even when the body carries a
top-level error field (the initial-call validation is not applied here) —
and processing silently continues: the full batch is still invoked and
all N follow-up calls are still issued. -/
theorem process_query_follow_up_malformed_silent
    (env : Env) (q : String) (tools : List ToolDescriptor)
    (resp : HTTPResponse) (body : ModelBody) (c : Choice) (rest : List Choice)
    (m : AssistantMsg) (tcs : List ToolCall) (i : Nat)
    (r : HTTPResponse) (body2 : ModelBody)
    (hs : env.hasSession = true)
    (hlt : env.listTools = Except.ok tools)
    (hi : env.initial = Except.ok resp)
    (hst : resp.status_code = 200)
    (hj : resp.jsonBody = Except.ok body)
    (he : body.error = none)
    (hc : body.choices = some (c :: rest))
    (hm : c.message = some m)
    (htc : m.tool_calls = some tcs)
    (hlen : i < tcs.length)
    (hfu : env.followUp i = Except.ok r)
    (hst2 : r.status_code = 200)
    (hjb : r.jsonBody = Except.ok body2)
    (hch : body2.choices = none ∨ body2.choices = some []) :
    followUpFragments (env.followUp i) = [] ∧
    (process_query env q).fragments = contentFragments m.content ++ loopFragments env 0 tcs ∧
    (process_query env q).invocations = toolInvocationsOf tcs ∧
    (process_query env q).followUpCalls = tcs.length := by
  rw [process_query_loop env q tools resp body c rest m tcs hs hlt hi hst hj he hc hm htc]
  refine ⟨?_, rfl, rfl, rfl⟩
  rw [hfu]
  rcases hch with hch | hch <;> simp [followUpFragments, hst2, hjb, hch]

/-- C10 witness: one tool call whose follow-up returns 200 with an error
field and an empty choices list — nothing is appended for it and the
query completes its batch. -/
theorem process_query_follow_up_malformed_silent_witness :
    followUpFragments (envFollowMalformed.followUp 0) = [] ∧
    (process_query envFollowMalformed "q").fragments =
      contentFragments none ++ loopFragments envFollowMalformed 0 [tcA] ∧
    (process_query envFollowMalformed "q").invocations = toolInvocationsOf [tcA] ∧
    (process_query envFollowMalformed "q").followUpCalls = 1 :=
  process_query_follow_up_malformed_silent envFollowMalformed "q" []
    (okResp { error := none, choices := some [mkChoice none (some [tcA])] })
    { error := none, choices := some [mkChoice none (some [tcA])] }
    (mkChoice none (some [tcA])) []
    { content := none, tool_calls := some [tcA] }
    [tcA] 0
    (okResp { error := some "follow-up error", choices := some [] })
    { error := some "follow-up error", choices := some [] }
    rfl rfl rfl rfl rfl rfl rfl rfl rfl (by decide) rfl rfl rfl (Or.inr rfl)
